import Mathlib

/-!
# workcraft-stronghold: task handlers

A shallow embedding of `handlers/task.go`.  Every handler is a function from the
collaborators it closes over (store, query translator, event sender, JSON codec)
and the request to a `Run`: the ordered list of store and event-sender calls the
handler made, and what it left in the `http.ResponseWriter` (or the panic that
ended it).
-/

namespace Stronghold

/-! ## Data model -/

/-- Modelled from the spec: the `Status` values of `models.Task` (§3); the
declaration of `models.Task` is not among the source files. -/
inductive TaskStatus
  | Created | Queued | Assigned | Running | Completed | Failed | Cancelled
  deriving DecidableEq, Repr

/-- Terminal states of the lifecycle table (§4.3). -/
def TaskStatus.isTerminal : TaskStatus → Bool
  | .Completed | .Failed | .Cancelled => true
  | _ => false

/-- Modelled from the spec: `models.Task` (§3).  The only field the handlers
read is `PeonID`, a `*string` in the source (it is dereferenced with `*`), hence
an `Option` here with `none` for the nil pointer. -/
structure Task where
  ID : String
  Status : TaskStatus
  PeonID : Option String
  Payload : String
  Result : Option String
  deriving DecidableEq, Repr

/-- Modelled from the spec: `models.TaskUpdate`, the sparse patch (§3). -/
structure TaskUpdate where
  Status : Option TaskStatus
  PeonID : Option String
  Result : Option String
  deriving DecidableEq, Repr

/-- Modelled from the spec: the error taxonomy of §7.  The handlers never look
at the kind of an error, only at `err != nil`. -/
inductive ErrKind
  | NotFound | StoreError | WorkerUnavailable | DeliveryFailed | InvalidQuery | Other
  deriving DecidableEq, Repr

/-- A Go `error` value: its kind and the text `Error()` returns. -/
structure GoError where
  kind : ErrKind
  text : String
  deriving DecidableEq, Repr

/-- Modelled from the spec: the structured predicate `ParseTaskQuery` returns
(§6); its declaration is not among the source files. -/
structure TaskQuery where
  clauses : List (String × String)
  deriving DecidableEq, Repr

/-- The part of `*http.Request` the handlers read: `r.PathValue("id")`, the
body, and `r.URL.Query().Get("query")`. -/
structure Request where
  id : String
  body : String
  query : String
  deriving DecidableEq, Repr

/-- What a handler left in the `http.ResponseWriter`. -/
structure Response where
  status : Nat
  contentType : String
  body : String
  deriving DecidableEq, Repr

/-- How the handler function ended: it returned with a response written, or it
panicked (a nil pointer dereference) before writing one. -/
inductive Outcome
  | responded (resp : Response)
  | panicked (reason : String)
  deriving DecidableEq, Repr

/-- A call on the store (`sqls`) or on the event sender (`events.EventSender`). -/
inductive Call
  | GetTask (id : String)
  | UpdateTask (id : String) (update : TaskUpdate)
  | CreateTask (task : Task)
  | GetTasks (q : TaskQuery)
  | SendEvent (peonID : String) (msg : String)
  | BroadcastToChieftains (msg : String)
  deriving DecidableEq, Repr

/-- One execution of a handler: the calls in the order made, and the outcome. -/
structure Run where
  calls : List Call
  outcome : Outcome
  deriving DecidableEq, Repr

/-- The collaborators of the handlers, none of which is among the source files;
each is taken as a parameter.  A Go `(value, err)` return is a pair whose second
component is `none` for `err == nil`. -/
structure Env where
  GetTask : String → Task × Option GoError
  UpdateTask : String → TaskUpdate → Task × Option GoError
  CreateTask : Task → Task × Option GoError
  GetTasks : TaskQuery → List Task × Option GoError
  ParseTaskQuery : String → Option TaskQuery × Option GoError
  SendEvent : String → String → Option GoError
  decodeTask : String → Option Task
  decodeUpdate : String → Option TaskUpdate
  marshalTask : Task → Option String
  marshalTasks : List Task → Option String
  renderTask : Task → String

/-! ## Helpers of `net/http` and `fmt` -/

/-- The call `http.Error(w, msg, code)`. -/
def httpError (msg : String) (code : Nat) : Outcome :=
  .responded ⟨code, "text/plain; charset=utf-8", msg ++ "\n"⟩

/-- A JSON response: `Content-Type: application/json`, the status, the body. -/
def jsonResponse (code : Nat) (body : String) : Outcome :=
  .responded ⟨code, "application/json", body⟩

/-- The message of the update handler:
`fmt.Sprintf({"type": "task_update", "message": {"task": %s}}, taskJSON)`. -/
def taskUpdateMsg (taskJSON : String) : String :=
  "\x7b\"type\": \"task_update\", \"message\": \x7b\"task\": " ++ taskJSON ++ "\x7d\x7d"

/-- The message of the cancel handler:
`fmt.Sprintf({"type": "cancel_task", "data": "%s"}, taskID)`. -/
def cancelTaskMsg (taskID : String) : String :=
  "\x7b\"type\": \"cancel_task\", \"data\": \"" ++ taskID ++ "\"\x7d"

/-! ## The handlers -/

/-- `CreateTaskViewHandler` (task.go 18-37). -/
def CreateTaskViewHandler (env : Env) (r : Request) : Run :=
  let taskID := r.id
  if taskID = "" then
    ⟨[], httpError "Task ID is required" 400⟩
  else
    match env.GetTask taskID with
    | (_, some _) => ⟨[.GetTask taskID], httpError "Unable to find task" 404⟩
    | (task, none) =>
      ⟨[.GetTask taskID], .responded ⟨200, "text/html; charset=utf-8", env.renderTask task⟩⟩

/-- `CreateTaskUpdateHandler` (task.go 44-78).  The `err` of `sqls.UpdateTask`
is assigned and then overwritten by the `err` of `json.Marshal` without having
been read. -/
def CreateTaskUpdateHandler (env : Env) (r : Request) : Run :=
  let taskID := r.id
  if taskID = "" then
    ⟨[], httpError "Task ID is required" 400⟩
  else
    match env.decodeUpdate r.body with
    | none => ⟨[], httpError "Invalid request body" 400⟩
    | some update =>
      let (updatedTask, _) := env.UpdateTask taskID update
      match env.marshalTask updatedTask with
      | none =>
        -- Marshal failed: no broadcast; WriteHeader(200), then Encode fails too
        ⟨[.UpdateTask taskID update], jsonResponse 200 ""⟩
      | some taskJSON =>
        ⟨[.UpdateTask taskID update, .BroadcastToChieftains (taskUpdateMsg taskJSON)],
          jsonResponse 200 (taskJSON ++ "\n")⟩

/-- `CreatePostTaskHandler` (task.go 80-104).  It closes over the store only. -/
def CreatePostTaskHandler (env : Env) (r : Request) : Run :=
  match env.decodeTask r.body with
  | none => ⟨[], httpError "Invalid request body" 400⟩
  | some task =>
    match env.CreateTask task with
    | (_, some _) => ⟨[.CreateTask task], httpError "Failed to create task" 500⟩
    | (task1, none) =>
      match env.marshalTask task1 with
      | none => ⟨[.CreateTask task], jsonResponse 201 ""⟩
      | some js => ⟨[.CreateTask task], jsonResponse 201 (js ++ "\n")⟩

/-- `CreateGetTasksHandler` (task.go 106-130).  `*queryParams` dereferences the
pointer `ParseTaskQuery` returned. -/
def CreateGetTasksHandler (env : Env) (r : Request) : Run :=
  let queryString := r.query
  match env.ParseTaskQuery queryString with
  | (_, some err) => ⟨[], httpError ("Invalid query: " ++ err.text) 400⟩
  | (none, none) => ⟨[], .panicked "nil pointer dereference"⟩
  | (some queryParams, none) =>
    match env.GetTasks queryParams with
    | (_, some _) => ⟨[.GetTasks queryParams], httpError "Internal server error" 500⟩
    | (response, none) =>
      match env.marshalTasks response with
      | none => ⟨[.GetTasks queryParams], httpError "Internal server error" 500⟩
      | some js => ⟨[.GetTasks queryParams], jsonResponse 200 (js ++ "\n")⟩

/-- `CreateGetTaskHandler` (task.go 132-158). -/
def CreateGetTaskHandler (env : Env) (r : Request) : Run :=
  let taskID := r.id
  if taskID = "" then
    ⟨[], httpError "Task ID is required" 400⟩
  else
    match env.GetTask taskID with
    | (_, some _) => ⟨[.GetTask taskID], httpError "Internal server error" 500⟩
    | (task, none) =>
      match env.marshalTask task with
      | none => ⟨[.GetTask taskID], httpError "Internal server error" 500⟩
      | some js => ⟨[.GetTask taskID], jsonResponse 200 (js ++ "\n")⟩

/-- `CreateCancelTaskHandler` (task.go 160-196).  The argument `*task.PeonID`
is evaluated before `SendEvent` is entered; on a nil `PeonID` it panics. -/
def CreateCancelTaskHandler (env : Env) (r : Request) : Run :=
  let taskID := r.id
  if taskID = "" then
    ⟨[], httpError "Task ID is required" 400⟩
  else
    match env.GetTask taskID with
    | (_, some _) => ⟨[.GetTask taskID], httpError "Internal server error" 500⟩
    | (task, none) =>
      let msg := cancelTaskMsg taskID
      match task.PeonID with
      | none => ⟨[.GetTask taskID], .panicked "nil pointer dereference"⟩
      | some peonID =>
        match env.SendEvent peonID msg with
        | some _ =>
          ⟨[.GetTask taskID, .SendEvent peonID msg], httpError "Internal server error" 500⟩
        | none =>
          ⟨[.GetTask taskID, .SendEvent peonID msg],
            jsonResponse 200 "\x7b\"send\":\"true\"\x7d\n"⟩

/-! ## Observations on a run -/

/-- The call writes to the store. -/
def Call.isStoreWrite : Call → Bool
  | .UpdateTask _ _ | .CreateTask _ => true
  | _ => false

/-- The call goes to the store. -/
def Call.isStore : Call → Bool
  | .GetTask _ | .UpdateTask _ _ | .CreateTask _ | .GetTasks _ => true
  | _ => false

/-- The call is a directed send. -/
def Call.isSend : Call → Bool
  | .SendEvent _ _ => true
  | _ => false

/-- The call is a broadcast to the controllers. -/
def Call.isBroadcast : Call → Bool
  | .BroadcastToChieftains _ => true
  | _ => false

/-- The call is `sqls.GetTasks`. -/
def Call.isGetTasks : Call → Bool
  | .GetTasks _ => true
  | _ => false

/-- The directed sends of a run, as (worker, message) pairs, in order. -/
def Run.sends (run : Run) : List (String × String) :=
  run.calls.filterMap fun
    | .SendEvent p m => some (p, m)
    | _ => none

/-- The broadcast messages of a run, in order. -/
def Run.broadcasts (run : Run) : List String :=
  run.calls.filterMap fun
    | .BroadcastToChieftains m => some m
    | _ => none

/-- The store writes of a run, in order. -/
def Run.storeWrites (run : Run) : List Call :=
  run.calls.filter Call.isStoreWrite

/-- The status code of the response, when the handler wrote one. -/
def Run.status (run : Run) : Option Nat :=
  match run.outcome with
  | .responded resp => some resp.status
  | .panicked _ => none

/-- The handler rejected the request as bad input before reaching a
collaborator: HTTP 400 and not one store or event-sender call. -/
def Run.rejectedBadInput (run : Run) : Prop :=
  run.status = some 400 ∧ run.calls = []

instance (run : Run) : Decidable run.rejectedBadInput := by
  unfold Run.rejectedBadInput; infer_instance

/-- The envelope in the words of the spec (§6), `{type: <ty>, data: <data>}`,
written in the serialization the cancel message uses. -/
def specEnvelope (ty data : String) : String :=
  "\x7b\"type\": \"" ++ ty ++ "\", \"data\": " ++ data ++ "\x7d"

/-- A JSON serialization contains the quoted key `"data"` somewhere. -/
def mentionsDataKey (msg : String) : Bool :=
  msg.data.tails.any fun tl => "\"data\"".data.isPrefixOf tl

/-- A hexadecimal digit, lower case. -/
def hexDigit (n : Nat) : Char :=
  if n < 10 then Char.ofNat (48 + n) else Char.ofNat (87 + n)

/-- The character may stand for itself inside a JSON string (RFC 8259 §7): it is
not the quotation mark (34), not the reverse solidus (92), not a control
character. -/
def jsonSafeChar (c : Char) : Bool :=
  c != Char.ofNat 34 && c != Char.ofNat 92 && decide (32 ≤ c.toNat)

/-- The text is its own JSON string content: every character is safe. -/
def jsonSafe (s : String) : Bool :=
  s.data.all jsonSafeChar

/-- The JSON escape of one character (RFC 8259 §7). -/
def jsonEscapeChar (c : Char) : List Char :=
  if c = Char.ofNat 34 then [Char.ofNat 92, Char.ofNat 34]
  else if c = Char.ofNat 92 then [Char.ofNat 92, Char.ofNat 92]
  else if c.toNat < 32 then
    [Char.ofNat 92, 'u', '0', '0', hexDigit (c.toNat / 16), hexDigit (c.toNat % 16)]
  else [c]

/-- The JSON escape of a list of characters. -/
def jsonEscape : List Char → List Char
  | [] => []
  | c :: cs => jsonEscapeChar c ++ jsonEscape cs

/-- The JSON string that denotes the text `s`: quoted and escaped.  The spec
envelope carries a task ID as `data` in this form. -/
def jsonQuote (s : String) : String :=
  ⟨Char.ofNat 34 :: (jsonEscape s.data ++ [Char.ofNat 34])⟩

/-! ## Sample collaborators -/

/-- A running task assigned to worker `w1`. -/
def demoRunning : Task := ⟨"t1", .Running, some "w1", "build", none⟩

/-- A task no worker was assigned to. -/
def demoUnassigned : Task := ⟨"t1", .Created, none, "build", none⟩

/-- A completed task that worker `w1` executed. -/
def demoCompleted : Task := ⟨"t1", .Completed, some "w1", "build", some "ok"⟩

/-- A sample serialization of a task. -/
def demoMarshal (t : Task) : Option String :=
  some ("\x7b\"id\":\"" ++ t.ID ++ "\"\x7d")

/-- A sample patch: set the status to Running. -/
def demoPatch : TaskUpdate := ⟨some .Running, none, none⟩

/-- Collaborators on which every call succeeds; the store holds `stored` under
every ID, a non-empty body decodes, and the filter `bad` does not parse. -/
def demoEnv (stored : Task) : Env where
  GetTask := fun _ => (stored, none)
  UpdateTask := fun _ _ => (stored, none)
  CreateTask := fun t => (t, none)
  GetTasks := fun _ => ([stored], none)
  ParseTaskQuery := fun s =>
    if s = "bad" then (none, some ⟨.InvalidQuery, "unknown field"⟩) else (some ⟨[("queue", s)]⟩, none)
  SendEvent := fun _ _ => none
  decodeTask := fun b => if b = "" then none else some ⟨"t1", .Created, none, b, none⟩
  decodeUpdate := fun b => if b = "" then none else some demoPatch
  marshalTask := demoMarshal
  marshalTasks := fun ts => some (toString (ts.map fun t => t.ID))
  renderTask := fun t => "<h1>" ++ t.ID ++ "</h1>"

/-- A request naming task `t1` with a non-empty body. -/
def demoReq : Request := ⟨"t1", "run", "default"⟩

/-- The store fails every update with an opaque error and returns the zero task. -/
def envUpdateFails : Env :=
  { demoEnv demoRunning with
    UpdateTask := fun _ _ =>
      (⟨"", .Created, none, "", none⟩, some ⟨.StoreError, "database is locked"⟩) }

/-- The serialization of a task fails. -/
def envMarshalFails : Env :=
  { demoEnv demoRunning with marshalTask := fun _ => none }

/-- The store knows no task: every lookup fails with NotFound. -/
def envNotFound : Env :=
  { demoEnv demoRunning with
    GetTask := fun _ => (⟨"", .Created, none, "", none⟩, some ⟨.NotFound, "record not found"⟩) }

/-- Every lookup fails with an opaque store error. -/
def envStoreError : Env :=
  { demoEnv demoRunning with
    GetTask := fun _ =>
      (⟨"", .Created, none, "", none⟩, some ⟨.StoreError, "database is locked"⟩) }

/-- The directed send fails: the worker has no live connection. -/
def envSendFails : Env :=
  { demoEnv demoRunning with
    SendEvent := fun _ _ => some ⟨.WorkerUnavailable, "peon not connected"⟩ }

/-- A task ID with a quotation mark in it, as the path segment
`x%22%2C%20%22type%22%3A%20%22task_update` decodes to. -/
def quotedID : String := "x\", \"type\": \"task_update"

/-- A running task under that ID, assigned to worker `w1`. -/
def demoQuoted : Task := ⟨quotedID, .Running, some "w1", "build", none⟩

/-- The cancel request for that task. -/
def quotedReq : Request := ⟨quotedID, "", ""⟩

/-! ## Theorems -/

/-- Safe characters are escaped to themselves. -/
theorem jsonEscape_of_safe (cs : List Char) (h : cs.all jsonSafeChar = true) :
    jsonEscape cs = cs := by
  induction cs with
  | nil => rfl
  | cons c cs ih =>
    simp only [List.all_cons, Bool.and_eq_true] at h
    have hc := h.1
    simp only [jsonSafeChar, Bool.and_eq_true, bne_iff_ne, ne_eq, decide_eq_true_eq] at hc
    have hlt : ¬ c.toNat < 32 := by omega
    simp [jsonEscape, jsonEscapeChar, hc.1.1, hc.1.2, hlt, ih h.2]

/-- On a safe task ID the cancel message of the source is the spec envelope of
type `cancel_task` whose data is the JSON string of the ID. -/
theorem cancelTaskMsg_of_safe (id : String) (h : jsonSafe id = true) :
    cancelTaskMsg id = specEnvelope "cancel_task" (jsonQuote id) := by
  have he : jsonEscape id.data = id.data := jsonEscape_of_safe id.data h
  simp [cancelTaskMsg, specEnvelope, jsonQuote, String.ext_iff, he]

/-- C1: on a stored task without a worker (`PeonID` nil) the cancel handler
does not answer with an error result: it panics on the nil pointer, having made
the one lookup and no store write, directed send or broadcast. -/
theorem cancel_unassigned_panics :
    (demoEnv demoUnassigned).GetTask "t1" = (demoUnassigned, none) ∧
    demoUnassigned.PeonID = none ∧
    CreateCancelTaskHandler (demoEnv demoUnassigned) demoReq
      = ⟨[.GetTask "t1"], .panicked "nil pointer dereference"⟩ ∧
    (CreateCancelTaskHandler (demoEnv demoUnassigned) demoReq).status = none := by
  refine ⟨rfl, rfl, ?_, ?_⟩ <;> decide

/-- C2: when `sqls.UpdateTask` returns an error the update handler goes on: it
broadcasts a `task_update` built from the returned value and answers HTTP 200. -/
theorem update_store_error_still_broadcasts :
    (envUpdateFails.UpdateTask "t1" demoPatch).2 = some ⟨.StoreError, "database is locked"⟩ ∧
    (CreateTaskUpdateHandler envUpdateFails demoReq).broadcasts
      = ["\x7b\"type\": \"task_update\", \"message\": \x7b\"task\": \x7b\"id\":\"\"\x7d\x7d\x7d"] ∧
    (CreateTaskUpdateHandler envUpdateFails demoReq).status = some 200 := by
  refine ⟨rfl, ?_, ?_⟩ <;> decide

/-- C3: the cancel message is the raw splice of the task ID between two quotation
marks.  For the running task of worker `w1` stored under an ID that holds a
quotation mark, the one directed send goes to `w1` (no broadcast, no store
write), but its message is
`{"type": "cancel_task", "data": "x", "type": "task_update"}`, which is not the
envelope of type `cancel_task` whose data is that ID. -/
theorem cancel_message_not_escaped :
    (demoEnv demoQuoted).GetTask quotedID = (demoQuoted, none) ∧
    demoQuoted.Status = .Running ∧ demoQuoted.PeonID = some "w1" ∧
    (demoEnv demoQuoted).SendEvent "w1" (cancelTaskMsg quotedID) = none ∧
    (CreateCancelTaskHandler (demoEnv demoQuoted) quotedReq).calls
      = [.GetTask quotedID,
          .SendEvent "w1"
            "\x7b\"type\": \"cancel_task\", \"data\": \"x\", \"type\": \"task_update\"\x7d"] ∧
    jsonSafe quotedID = false ∧
    specEnvelope "cancel_task" (jsonQuote quotedID)
      = "\x7b\"type\": \"cancel_task\", \"data\": \"x\\\", \\\"type\\\": \\\"task_update\"\x7d" ∧
    cancelTaskMsg quotedID ≠ specEnvelope "cancel_task" (jsonQuote quotedID) := by
  refine ⟨rfl, rfl, rfl, rfl, ?_, ?_, ?_, ?_⟩ <;> decide

/-- C4, counterexample: the store update succeeds and returns the running task,
the serialization of that task fails, and the handler makes no broadcast and
answers with an empty body. -/
theorem update_broadcast_needs_marshal :
    envMarshalFails.decodeUpdate demoReq.body = some demoPatch ∧
    envMarshalFails.UpdateTask demoReq.id demoPatch = (demoRunning, none) ∧
    (CreateTaskUpdateHandler envMarshalFails demoReq).broadcasts = [] ∧
    (CreateTaskUpdateHandler envMarshalFails demoReq).outcome = jsonResponse 200 "" := by
  refine ⟨rfl, rfl, ?_, ?_⟩ <;> decide

/-- C4, amended: when the store update succeeds with task `t` and `t` serializes
to `s`, the handler makes exactly one broadcast, the `task_update` message that
carries `s` (the full task, not the patch), and answers HTTP 200 with `s`. -/
theorem update_broadcasts_full_task (env : Env) (r : Request) (u : TaskUpdate) (t : Task)
    (s : String) (hid : r.id ≠ "") (hdec : env.decodeUpdate r.body = some u)
    (hupd : env.UpdateTask r.id u = (t, none)) (hm : env.marshalTask t = some s) :
    (CreateTaskUpdateHandler env r).broadcasts
      = ["\x7b\"type\": \"task_update\", \"message\": \x7b\"task\": " ++ s ++ "\x7d\x7d"] ∧
    (CreateTaskUpdateHandler env r).calls
      = [.UpdateTask r.id u, .BroadcastToChieftains (taskUpdateMsg s)] ∧
    (CreateTaskUpdateHandler env r).outcome = jsonResponse 200 (s ++ "\n") := by
  have hrun : CreateTaskUpdateHandler env r
      = ⟨[.UpdateTask r.id u, .BroadcastToChieftains (taskUpdateMsg s)],
          jsonResponse 200 (s ++ "\n")⟩ := by
    simp [CreateTaskUpdateHandler, hid, hdec, hupd, hm]
  rw [hrun]
  refine ⟨?_, rfl, rfl⟩
  simp [Run.broadcasts, taskUpdateMsg]

/-- Witness for C4 on the running task `t1`. -/
theorem update_broadcasts_full_task_witness :
    (CreateTaskUpdateHandler (demoEnv demoRunning) demoReq).broadcasts
      = ["\x7b\"type\": \"task_update\", \"message\": \x7b\"task\": "
          ++ "\x7b\"id\":\"t1\"\x7d" ++ "\x7d\x7d"] ∧
    (CreateTaskUpdateHandler (demoEnv demoRunning) demoReq).calls
      = [.UpdateTask "t1" demoPatch,
          .BroadcastToChieftains (taskUpdateMsg "\x7b\"id\":\"t1\"\x7d")] ∧
    (CreateTaskUpdateHandler (demoEnv demoRunning) demoReq).outcome
      = jsonResponse 200 ("\x7b\"id\":\"t1\"\x7d" ++ "\n") :=
  update_broadcasts_full_task (demoEnv demoRunning) demoReq demoPatch demoRunning
    "\x7b\"id\":\"t1\"\x7d" (by decide) rfl rfl (by decide)

/-- C5, counterexample: a well-formed create request that the store accepts
produces no broadcast at all, so not exactly one `task_created`. -/
theorem create_makes_no_broadcast :
    (demoEnv demoRunning).decodeTask demoReq.body = some ⟨"t1", .Created, none, "run", none⟩ ∧
    ((demoEnv demoRunning).CreateTask ⟨"t1", .Created, none, "run", none⟩).2 = none ∧
    (CreatePostTaskHandler (demoEnv demoRunning) demoReq).status = some 201 ∧
    (CreatePostTaskHandler (demoEnv demoRunning) demoReq).broadcasts.length ≠ 1 := by
  refine ⟨?_, rfl, ?_, ?_⟩ <;> decide

/-- C5, amended: a well-formed create request that the store accepts emits no
event at all, neither a broadcast nor a directed message; the one collaborator
call is `CreateTask`, and the answer is HTTP 201. -/
theorem create_emits_no_event (env : Env) (r : Request) (task created : Task)
    (hdec : env.decodeTask r.body = some task)
    (hcreate : env.CreateTask task = (created, none)) :
    (CreatePostTaskHandler env r).calls = [.CreateTask task] ∧
    (CreatePostTaskHandler env r).broadcasts = [] ∧
    (CreatePostTaskHandler env r).sends = [] ∧
    (CreatePostTaskHandler env r).status = some 201 := by
  cases hjs : env.marshalTask created <;>
    simp [CreatePostTaskHandler, hdec, hcreate, hjs, Run.broadcasts, Run.sends, Run.status,
      jsonResponse]

/-- Witness for C5. -/
theorem create_emits_no_event_witness :
    (CreatePostTaskHandler (demoEnv demoRunning) demoReq).calls
      = [.CreateTask ⟨"t1", .Created, none, "run", none⟩] ∧
    (CreatePostTaskHandler (demoEnv demoRunning) demoReq).broadcasts = [] ∧
    (CreatePostTaskHandler (demoEnv demoRunning) demoReq).sends = [] ∧
    (CreatePostTaskHandler (demoEnv demoRunning) demoReq).status = some 201 :=
  create_emits_no_event (demoEnv demoRunning) demoReq ⟨"t1", .Created, none, "run", none⟩
    ⟨"t1", .Created, none, "run", none⟩ (by decide) rfl

/-- C6, counterexample: the stored task is Completed, yet the update handler
calls `UpdateTask`, broadcasts and answers 200, and the cancel handler sends the
directed `cancel_task` message and answers 200. -/
theorem terminal_status_not_checked :
    ((demoEnv demoCompleted).GetTask "t1").1.Status.isTerminal = true ∧
    Call.UpdateTask "t1" demoPatch ∈ (CreateTaskUpdateHandler (demoEnv demoCompleted) demoReq).calls ∧
    (CreateTaskUpdateHandler (demoEnv demoCompleted) demoReq).broadcasts.length = 1 ∧
    (CreateTaskUpdateHandler (demoEnv demoCompleted) demoReq).status = some 200 ∧
    (CreateCancelTaskHandler (demoEnv demoCompleted) demoReq).sends
      = [("w1", cancelTaskMsg "t1")] ∧
    (CreateCancelTaskHandler (demoEnv demoCompleted) demoReq).status = some 200 := by
  refine ⟨rfl, ?_, ?_, ?_, ?_, ?_⟩ <;> decide

/-- C6, amended: the handlers do not consult the stored status.  For a task
whose stored status is terminal: every well-formed update (non-empty ID, patch
`u` decoded) makes exactly one store write, `UpdateTask id u`, and when that
call succeeds with a task that serializes, it is answered HTTP 200 with that
task and broadcast as `task_update`; every cancel of such a task that has worker
`w` makes no store write and exactly one directed send, the cancel message of
the source to `w`, and when the send succeeds it is answered `{"send":"true"}`. -/
theorem terminal_status_ignored :
    (∀ (env : Env) (r : Request) (t : Task) (u : TaskUpdate), r.id ≠ "" →
      env.GetTask r.id = (t, none) → t.Status.isTerminal = true →
      env.decodeUpdate r.body = some u →
      (CreateTaskUpdateHandler env r).storeWrites = [.UpdateTask r.id u] ∧
      (∀ t1 s, env.UpdateTask r.id u = (t1, none) → env.marshalTask t1 = some s →
        (CreateTaskUpdateHandler env r).broadcasts = [taskUpdateMsg s] ∧
        (CreateTaskUpdateHandler env r).outcome = jsonResponse 200 (s ++ "\n"))) ∧
    (∀ (env : Env) (r : Request) (t : Task) (w : String), r.id ≠ "" →
      env.GetTask r.id = (t, none) → t.Status.isTerminal = true → t.PeonID = some w →
      (CreateCancelTaskHandler env r).sends = [(w, cancelTaskMsg r.id)] ∧
      (CreateCancelTaskHandler env r).storeWrites = [] ∧
      (env.SendEvent w (cancelTaskMsg r.id) = none →
        (CreateCancelTaskHandler env r).outcome
          = jsonResponse 200 "\x7b\"send\":\"true\"\x7d\n")) := by
  refine ⟨fun env r t u hid _ _ hdec => ⟨?_, fun t1 s hupd hjs => ?_⟩,
    fun env r t w hid hget _ hw => ⟨?_, ?_, fun hs => ?_⟩⟩
  · rcases hupd : env.UpdateTask r.id u with ⟨t1, e⟩
    cases hjs : env.marshalTask t1 <;>
      simp [CreateTaskUpdateHandler, hid, hdec, hupd, hjs, Run.storeWrites, Call.isStoreWrite]
  · simp [CreateTaskUpdateHandler, hid, hdec, hupd, hjs, Run.broadcasts]
  · cases hs : env.SendEvent w (cancelTaskMsg r.id) <;>
      simp [CreateCancelTaskHandler, hid, hget, hw, hs, Run.sends]
  · cases hs : env.SendEvent w (cancelTaskMsg r.id) <;>
      simp [CreateCancelTaskHandler, hid, hget, hw, hs, Run.storeWrites, Call.isStoreWrite]
  · simp [CreateCancelTaskHandler, hid, hget, hw, hs]

/-- Witness for C6 on the completed task `t1`: an update of it, and a cancel. -/
theorem terminal_status_ignored_witness :
    ((CreateTaskUpdateHandler (demoEnv demoCompleted) demoReq).storeWrites
        = [.UpdateTask "t1" demoPatch] ∧
      (CreateTaskUpdateHandler (demoEnv demoCompleted) demoReq).broadcasts
        = [taskUpdateMsg "\x7b\"id\":\"t1\"\x7d"] ∧
      (CreateTaskUpdateHandler (demoEnv demoCompleted) demoReq).outcome
        = jsonResponse 200 ("\x7b\"id\":\"t1\"\x7d" ++ "\n")) ∧
    ((CreateCancelTaskHandler (demoEnv demoCompleted) ⟨"t1", "", ""⟩).sends
        = [("w1", cancelTaskMsg "t1")] ∧
      (CreateCancelTaskHandler (demoEnv demoCompleted) ⟨"t1", "", ""⟩).storeWrites = [] ∧
      (CreateCancelTaskHandler (demoEnv demoCompleted) ⟨"t1", "", ""⟩).outcome
        = jsonResponse 200 "\x7b\"send\":\"true\"\x7d\n") :=
  have hu := terminal_status_ignored.1 (demoEnv demoCompleted) demoReq demoCompleted demoPatch
    (by decide) rfl rfl (by decide)
  have hc := terminal_status_ignored.2 (demoEnv demoCompleted) ⟨"t1", "", ""⟩ demoCompleted "w1"
    (by decide) rfl rfl rfl
  ⟨⟨hu.1, hu.2 demoCompleted "\x7b\"id\":\"t1\"\x7d" rfl (by decide)⟩,
    ⟨hc.1, hc.2.1, hc.2.2 rfl⟩⟩

/-- C7: a request rejected by input validation (an empty task ID on get, update,
cancel or task-view; a body that does not decode on create or update) is
answered HTTP 400 without one call to the store or to the event sender. -/
theorem validation_rejects_before_side_effects (env : Env) (r : Request) :
    (r.id = "" →
      (CreateGetTaskHandler env r).rejectedBadInput ∧
      (CreateTaskUpdateHandler env r).rejectedBadInput ∧
      (CreateCancelTaskHandler env r).rejectedBadInput ∧
      (CreateTaskViewHandler env r).rejectedBadInput) ∧
    (env.decodeTask r.body = none → (CreatePostTaskHandler env r).rejectedBadInput) ∧
    (env.decodeUpdate r.body = none → (CreateTaskUpdateHandler env r).rejectedBadInput) := by
  refine ⟨fun hid => ?_, fun hdec => ?_, fun hdec => ?_⟩
  · simp [CreateGetTaskHandler, CreateTaskUpdateHandler, CreateCancelTaskHandler,
      CreateTaskViewHandler, Run.rejectedBadInput, Run.status, httpError, hid]
  · simp [CreatePostTaskHandler, Run.rejectedBadInput, Run.status, httpError, hdec]
  · by_cases hid : r.id = "" <;>
      simp [CreateTaskUpdateHandler, Run.rejectedBadInput, Run.status, httpError, hid, hdec]

/-- Witness for C7: the empty task ID, and the empty body, which does not decode. -/
theorem validation_rejects_before_side_effects_witness :
    ((CreateGetTaskHandler (demoEnv demoRunning) ⟨"", "", ""⟩).rejectedBadInput ∧
      (CreateTaskUpdateHandler (demoEnv demoRunning) ⟨"", "", ""⟩).rejectedBadInput ∧
      (CreateCancelTaskHandler (demoEnv demoRunning) ⟨"", "", ""⟩).rejectedBadInput ∧
      (CreateTaskViewHandler (demoEnv demoRunning) ⟨"", "", ""⟩).rejectedBadInput) ∧
    (CreatePostTaskHandler (demoEnv demoRunning) ⟨"", "", ""⟩).rejectedBadInput ∧
    (CreateTaskUpdateHandler (demoEnv demoRunning) ⟨"", "", ""⟩).rejectedBadInput :=
  ⟨(validation_rejects_before_side_effects (demoEnv demoRunning) ⟨"", "", ""⟩).1 rfl,
    (validation_rejects_before_side_effects (demoEnv demoRunning) ⟨"", "", ""⟩).2.1 (by decide),
    (validation_rejects_before_side_effects (demoEnv demoRunning) ⟨"", "", ""⟩).2.2 (by decide)⟩

/-- C8: a filter string on which `ParseTaskQuery` returns an error is answered
HTTP 400 (`Invalid query: ...`) without a call to `GetTasks` or any other
collaborator; a filter string that parses to `q` leads to exactly one store
call, `GetTasks q`. -/
theorem list_rejects_invalid_query (env : Env) (r : Request) :
    (∀ e, (env.ParseTaskQuery r.query).2 = some e →
      (CreateGetTasksHandler env r).outcome = httpError ("Invalid query: " ++ e.text) 400 ∧
      (CreateGetTasksHandler env r).status = some 400 ∧
      (CreateGetTasksHandler env r).calls = []) ∧
    (∀ q, env.ParseTaskQuery r.query = (some q, none) →
      (CreateGetTasksHandler env r).calls = [.GetTasks q] ∧
      (CreateGetTasksHandler env r).calls.filter Call.isStore = [.GetTasks q]) := by
  refine ⟨fun e he => ?_, fun q hq => ?_⟩
  · rcases hp : env.ParseTaskQuery r.query with ⟨oq, oe⟩
    rw [hp] at he
    simp only at he
    subst he
    simp [CreateGetTasksHandler, hp, Run.status, httpError]
  · rcases hg : env.GetTasks q with ⟨resp, oe⟩
    cases oe with
    | some e => simp [CreateGetTasksHandler, hq, hg, Call.isStore]
    | none =>
      cases hjs : env.marshalTasks resp <;>
        simp [CreateGetTasksHandler, hq, hg, hjs, Call.isStore]

/-- Witness for C8: the filter `bad` is rejected, the filter `default` is scanned. -/
theorem list_rejects_invalid_query_witness :
    ((CreateGetTasksHandler (demoEnv demoRunning) ⟨"", "", "bad"⟩).outcome
        = httpError ("Invalid query: " ++ "unknown field") 400 ∧
      (CreateGetTasksHandler (demoEnv demoRunning) ⟨"", "", "bad"⟩).status = some 400 ∧
      (CreateGetTasksHandler (demoEnv demoRunning) ⟨"", "", "bad"⟩).calls = []) ∧
    ((CreateGetTasksHandler (demoEnv demoRunning) demoReq).calls
        = [.GetTasks ⟨[("queue", "default")]⟩] ∧
      (CreateGetTasksHandler (demoEnv demoRunning) demoReq).calls.filter Call.isStore
        = [.GetTasks ⟨[("queue", "default")]⟩]) :=
  ⟨(list_rejects_invalid_query (demoEnv demoRunning) ⟨"", "", "bad"⟩).1
      ⟨.InvalidQuery, "unknown field"⟩ (by decide),
    (list_rejects_invalid_query (demoEnv demoRunning) demoReq).2
      ⟨[("queue", "default")]⟩ (by decide)⟩

/-- C9, counterexample: an unknown task ID (NotFound), an opaque store error and
a failed directed send (WorkerUnavailable) are answered with one and the same
response by the get-task and cancel handlers. -/
theorem error_kinds_share_response :
    (envNotFound.GetTask "t1").2 = some ⟨.NotFound, "record not found"⟩ ∧
    (envStoreError.GetTask "t1").2 = some ⟨.StoreError, "database is locked"⟩ ∧
    envSendFails.SendEvent "w1" (cancelTaskMsg "t1")
      = some ⟨.WorkerUnavailable, "peon not connected"⟩ ∧
    (CreateGetTaskHandler envNotFound demoReq).outcome
      = (CreateGetTaskHandler envStoreError demoReq).outcome ∧
    (CreateCancelTaskHandler envNotFound demoReq).outcome
      = (CreateCancelTaskHandler envStoreError demoReq).outcome ∧
    (CreateCancelTaskHandler envStoreError demoReq).outcome
      = (CreateCancelTaskHandler envSendFails demoReq).outcome := by
  refine ⟨rfl, rfl, rfl, ?_, ?_, ?_⟩ <;> decide

/-- C9, amended: for a non-empty task ID, a store lookup that fails (with
whatever kind of error) on get-task or cancel, and a directed send that fails on
cancel, are all answered `500 Internal server error`; that response differs from
the bad-input response `400 Task ID is required` given to an empty task ID. -/
theorem lookup_and_send_errors_are_internal (env : Env) (r : Request) (hid : r.id ≠ "") :
    (∀ e, (env.GetTask r.id).2 = some e →
      (CreateGetTaskHandler env r).outcome = httpError "Internal server error" 500 ∧
      (CreateCancelTaskHandler env r).outcome = httpError "Internal server error" 500) ∧
    (∀ t w e, env.GetTask r.id = (t, none) → t.PeonID = some w →
      env.SendEvent w (cancelTaskMsg r.id) = some e →
      (CreateCancelTaskHandler env r).outcome = httpError "Internal server error" 500) ∧
    (CreateGetTaskHandler env ⟨"", r.body, r.query⟩).outcome = httpError "Task ID is required" 400 ∧
    (CreateCancelTaskHandler env ⟨"", r.body, r.query⟩).outcome
      = httpError "Task ID is required" 400 ∧
    httpError "Internal server error" 500 ≠ httpError "Task ID is required" 400 := by
  refine ⟨fun e he => ?_, fun t w e hget hw hs => ?_, ?_, ?_, by decide⟩
  · rcases hg : env.GetTask r.id with ⟨t, oe⟩
    rw [hg] at he
    simp only at he
    subst he
    simp [CreateGetTaskHandler, CreateCancelTaskHandler, hid, hg]
  · simp [CreateCancelTaskHandler, hid, hget, hw, hs]
  · simp [CreateGetTaskHandler]
  · simp [CreateCancelTaskHandler]

/-- Witness for C9: the lookup failing with NotFound, and the send failing. -/
theorem lookup_and_send_errors_are_internal_witness :
    ((CreateGetTaskHandler envNotFound demoReq).outcome
        = httpError "Internal server error" 500 ∧
      (CreateCancelTaskHandler envNotFound demoReq).outcome
        = httpError "Internal server error" 500) ∧
    (CreateCancelTaskHandler envSendFails demoReq).outcome
      = httpError "Internal server error" 500 :=
  ⟨(lookup_and_send_errors_are_internal envNotFound demoReq (by decide)).1
      ⟨.NotFound, "record not found"⟩ rfl,
    (lookup_and_send_errors_are_internal envSendFails demoReq (by decide)).2.1
      demoRunning "w1" ⟨.WorkerUnavailable, "peon not connected"⟩ rfl rfl rfl⟩

/-- C10, counterexample: the `task_update` message the update handler broadcasts
for task `t1` is not the spec envelope with a `data` field, whatever the data:
it has no `"data"` key at all. -/
theorem task_update_has_no_data_field :
    (CreateTaskUpdateHandler (demoEnv demoRunning) demoReq).broadcasts
      = [taskUpdateMsg "\x7b\"id\":\"t1\"\x7d"] ∧
    mentionsDataKey (taskUpdateMsg "\x7b\"id\":\"t1\"\x7d") = false ∧
    ¬ ∃ d, taskUpdateMsg "\x7b\"id\":\"t1\"\x7d" = specEnvelope "task_update" d := by
  refine ⟨by decide, by decide, ?_⟩
  rintro ⟨d, h⟩
  have h1 := congrArg (fun s => s.data.get? 25) h
  simp [taskUpdateMsg, specEnvelope] at h1

/-- C10, amended: every `task_update` message broadcast by the update handler
has the top-level fields `type` and `message`, the latter an object whose one
field `task` holds the task representation; every message the cancel handler
sends for a task ID that is its own JSON string content (no quotation mark,
reverse solidus or control character) is the envelope `{type, data}` of type
`cancel_task` whose data is the JSON string of the task ID. -/
theorem message_envelopes (env : Env) (r : Request) :
    (∀ m ∈ (CreateTaskUpdateHandler env r).broadcasts, ∃ u s,
      env.marshalTask (env.UpdateTask r.id u).1 = some s ∧
      m = "\x7b\"type\": \"task_update\", \"message\": \x7b\"task\": " ++ s ++ "\x7d\x7d") ∧
    (jsonSafe r.id = true → ∀ pm ∈ (CreateCancelTaskHandler env r).sends,
      pm.2 = specEnvelope "cancel_task" (jsonQuote r.id) ∧
      pm.2 = "\x7b\"type\": \"cancel_task\", \"data\": \"" ++ r.id ++ "\"\x7d") := by
  refine ⟨fun m hm => ?_, fun hsafe pm hpm => ?_⟩
  · by_cases hid : r.id = ""
    · simp [CreateTaskUpdateHandler, hid, Run.broadcasts] at hm
    · cases hdec : env.decodeUpdate r.body with
      | none => simp [CreateTaskUpdateHandler, hid, hdec, Run.broadcasts] at hm
      | some u =>
        cases hjs : env.marshalTask (env.UpdateTask r.id u).1 with
        | none => simp [CreateTaskUpdateHandler, hid, hdec, hjs, Run.broadcasts] at hm
        | some s =>
          simp [CreateTaskUpdateHandler, hid, hdec, hjs, Run.broadcasts] at hm
          exact ⟨u, s, hjs, by simp [hm, taskUpdateMsg]⟩
  · have hmsg : pm.2 = cancelTaskMsg r.id := by
      by_cases hid : r.id = ""
      · simp [CreateCancelTaskHandler, hid, Run.sends] at hpm
      · rcases hg : env.GetTask r.id with ⟨t, oe⟩
        cases oe with
        | some e => simp [CreateCancelTaskHandler, hid, hg, Run.sends] at hpm
        | none =>
          cases hw : t.PeonID with
          | none => simp [CreateCancelTaskHandler, hid, hg, hw, Run.sends] at hpm
          | some w =>
            cases hs : env.SendEvent w (cancelTaskMsg r.id) <;>
              simp [CreateCancelTaskHandler, hid, hg, hw, hs, Run.sends] at hpm <;>
              simp [hpm]
    exact ⟨hmsg.trans (cancelTaskMsg_of_safe r.id hsafe), hmsg⟩

/-- Witness for C10: the messages of an update and of a cancel of task `t1`. -/
theorem message_envelopes_witness :
    (∃ u s, (demoEnv demoRunning).marshalTask ((demoEnv demoRunning).UpdateTask "t1" u).1 = some s ∧
      taskUpdateMsg "\x7b\"id\":\"t1\"\x7d"
        = "\x7b\"type\": \"task_update\", \"message\": \x7b\"task\": " ++ s ++ "\x7d\x7d") ∧
    (cancelTaskMsg "t1" = specEnvelope "cancel_task" (jsonQuote "t1") ∧
      cancelTaskMsg "t1" = "\x7b\"type\": \"cancel_task\", \"data\": \"" ++ "t1" ++ "\"\x7d") :=
  ⟨(message_envelopes (demoEnv demoRunning) demoReq).1
      (taskUpdateMsg "\x7b\"id\":\"t1\"\x7d") (by decide),
    (message_envelopes (demoEnv demoRunning) demoReq).2 (by decide)
      ("w1", cancelTaskMsg "t1") (by decide)⟩

end Stronghold
